import Mathlib

/-!
# ESP32 fridge controller (`src/main.cpp`): embedding and verified properties

The controller keeps a handful of globals (`curT1`, `curH1`, `curT2`, `curH2`, `setT`, `mode`,
`lcdDirty`), three function-local statics of `loop` holding the previous button levels
(`lUp`, `lDn`, `lMd`), the static `last` sampling timestamp and the latch of the cooling pin.
One `loop()` iteration is modelled as a pure function from an input record (everything the
iteration reads from the outside world) and the state to the new state plus an output record
(everything it writes to the outside world).  The `/btn` route is modelled the same way.

## Numbers

* `float` is IEEE binary32.  A value is `nan`, an infinity or a finite rational; every
  arithmetic result is rounded to the nearest binary32 (ties to even) by `round32`.
  The two zeros are identified: the program never inspects a sign bit and never divides
  by a variable, and comparisons treat the zeros as equal.
* `uint32_t` / `unsigned long` values are naturals reduced modulo `2 ^ 32`.
* `int mode`: `mode % 3 + 1` lies in `[-1, 3]`, so no overflow can occur; `%` truncates
  towards zero (`Int.tmod`).
-/

namespace Fridge

/-! ## binary32 -/

/-- A binary32 value: not-a-number, the two infinities, or a finite value. -/
inductive F32 where
  | nan : F32
  | pinf : F32
  | ninf : F32
  | fin (q : ℚ) : F32
  deriving DecidableEq, Repr

/-- Exponent of the unit in the last place for magnitude `a`: 24 significant bits, with the
smallest normal binade `2 ^ (-126)` shared by the subnormals. -/
def ulpExp (a : ℚ) : ℤ := max (Int.log 2 a) (-126) - 23

/-- Round to the nearest integer, ties to even. -/
def roundHalfEven (x : ℚ) : ℤ :=
  let f := ⌊x⌋
  let r := x - f
  if r < 1 / 2 then f
  else if 1 / 2 < r then f + 1
  else if f % 2 = 0 then f else f + 1

/-- Round a rational to binary32, round-to-nearest-even, overflowing to an infinity. -/
def round32 (q : ℚ) : F32 :=
  let e := ulpExp |q|
  let r : ℚ := (roundHalfEven (q / 2 ^ e) : ℚ) * 2 ^ e
  if (2 : ℚ) ^ (128 : ℕ) ≤ |r| then (if 0 < q then F32.pinf else F32.ninf) else F32.fin r

namespace F32

/-- The `isnan` test. -/
def isnan : F32 → Bool
  | nan => true
  | _ => false

/-- Unary minus. -/
def neg : F32 → F32
  | nan => nan
  | pinf => ninf
  | ninf => pinf
  | fin q => fin (-q)

/-- Binary32 addition. -/
def add : F32 → F32 → F32
  | nan, _ => nan
  | _, nan => nan
  | pinf, ninf => nan
  | ninf, pinf => nan
  | pinf, _ => pinf
  | _, pinf => pinf
  | ninf, _ => ninf
  | _, ninf => ninf
  | fin a, fin b => round32 (a + b)

/-- Binary32 subtraction. -/
def sub (a b : F32) : F32 := add a (neg b)

/-- Sign-directed infinity. -/
def infOfSign (positive : Bool) : F32 := if positive then pinf else ninf

/-- Binary32 multiplication. -/
def mul : F32 → F32 → F32
  | nan, _ => nan
  | _, nan => nan
  | pinf, pinf => pinf
  | pinf, ninf => ninf
  | ninf, pinf => ninf
  | ninf, ninf => pinf
  | pinf, fin b => if b = 0 then nan else infOfSign (decide (0 < b))
  | ninf, fin b => if b = 0 then nan else infOfSign (decide (b < 0))
  | fin a, pinf => if a = 0 then nan else infOfSign (decide (0 < a))
  | fin a, ninf => if a = 0 then nan else infOfSign (decide (a < 0))
  | fin a, fin b => round32 (a * b)

/-- Binary32 division (a zero divisor is taken as `+0`; the program only divides by `5`). -/
def div : F32 → F32 → F32
  | nan, _ => nan
  | _, nan => nan
  | pinf, pinf => nan
  | pinf, ninf => nan
  | ninf, pinf => nan
  | ninf, ninf => nan
  | pinf, fin b => infOfSign (decide (0 ≤ b))
  | ninf, fin b => infOfSign (decide (b < 0))
  | fin _, pinf => fin 0
  | fin _, ninf => fin 0
  | fin a, fin b =>
    if b = 0 then (if a = 0 then nan else infOfSign (decide (0 < a))) else round32 (a / b)

/-- The `<` comparison: false as soon as an operand is `nan`. -/
def lt : F32 → F32 → Bool
  | nan, _ => false
  | _, nan => false
  | ninf, ninf => false
  | ninf, _ => true
  | _, ninf => false
  | pinf, _ => false
  | fin _, pinf => true
  | fin a, fin b => decide (a < b)

/-- The `>` comparison. -/
def gt (a b : F32) : Bool := lt b a

/-- `std::min` (what Arduino's `min` is on the ESP32 core): `(b < a) ? b : a`. -/
def min (a b : F32) : F32 := if lt b a then b else a

/-- `std::max` (what Arduino's `max` is on the ESP32 core): `(a < b) ? b : a`. -/
def max (a b : F32) : F32 := if lt a b then b else a

end F32

/-! ## Machine integers -/

/-- Unsigned 32-bit subtraction: `a - b` wraps modulo `2 ^ 32`. -/
def sub32 (a b : ℕ) : ℕ := (a % 2 ^ 32 + (2 ^ 32 - b % 2 ^ 32)) % 2 ^ 32

/-- Pin level `HIGH`. -/
def HIGH : Bool := true

/-- Pin level `LOW`. -/
def LOW : Bool := false

/-! ## State -/

/-- Globals of the sketch, the statics of `loop`, and the latch of `COOL_PIN`. -/
structure State where
  curT1 : F32
  curH1 : F32
  curT2 : F32
  curH2 : F32
  setT : F32
  mode : ℤ
  lcdDirty : Bool
  lUp : Bool
  lDn : Bool
  lMd : Bool
  last : ℕ
  coolPin : Bool
  deriving DecidableEq, Repr

/-- State when `setup` returns: the initialisers of the globals and statics, `COOL_PIN`
written `LOW`, `lcdDirty = true`. -/
def setup : State :=
  { curT1 := F32.nan, curH1 := F32.nan, curT2 := F32.nan, curH2 := F32.nan
    setT := F32.fin 38
    mode := 1
    lcdDirty := true
    lUp := HIGH, lDn := HIGH, lMd := HIGH
    last := 0
    coolPin := LOW }

/-! ## The three mutations

Each is written twice in the source, once in the `/btn` handler and once in `loop`.  The two
spellings denote the same binary32 computation: in `setT+1` the `int` literal is converted to
`float` before the addition, and `120.f` is `120.0f`. -/

/-- The expression `min(setT + 1.0f, 120.0f)` (handler), `min(setT+1,120.f)` (`loop`). -/
def incSetT (t : F32) : F32 := F32.min (F32.add t (F32.fin 1)) (F32.fin 120)

/-- The expression `max(setT - 1.0f, -40.0f)` (handler), `max(setT-1,-40.f)` (`loop`). -/
def decSetT (t : F32) : F32 := F32.max (F32.sub t (F32.fin 1)) (F32.fin (-40))

/-- The expression `mode % 3 + 1` (handler), `mode%3+1` (`loop`). -/
def cycleMode (m : ℤ) : ℤ := Int.tmod m 3 + 1

/-! ## The `/btn` route -/

/-- Handler of `GET /btn`: `cmd` is the value of the `cmd` query parameter, `none` when the
request has none.  Returns the new state and the HTTP status sent. -/
def btnRoute (cmd : Option String) (s : State) : State × ℕ :=
  match cmd with
  | none => (s, 204)
  | some c =>
    let s := if c = "up" then { s with setT := incSetT s.setT } else s
    let s := if c = "down" then { s with setT := decSetT s.setT } else s
    let s := if c = "mode" then { s with mode := cycleMode s.mode } else s
    ({ s with lcdDirty := true }, 204)

/-! ## One iteration of `loop` -/

/-- What one iteration reads from the outside world. -/
structure LoopIn where
  /-- Level read by `digitalRead(BTN_UP)`. -/
  up : Bool
  /-- Level read by `digitalRead(BTN_DN)`. -/
  dn : Bool
  /-- Level read by `digitalRead(BTN_MODE)`. -/
  md : Bool
  /-- Value of `millis()` in the cadence test. -/
  now : ℕ
  /-- Result of `dht1.readTemperature()`. -/
  c1 : F32
  /-- Result of `dht1.readHumidity()`. -/
  h1 : F32
  /-- Result of `dht2.readTemperature()`. -/
  c2 : F32
  /-- Result of `dht2.readHumidity()`. -/
  h2 : F32
  /-- Value of `millis()` stored into `last`. -/
  now2 : ℕ
  deriving DecidableEq, Repr

/-- Arguments of the `Serial.printf` status line. -/
structure SerialLine where
  t1 : F32
  h1 : F32
  t2 : F32
  h2 : F32
  set : F32
  mode : ℤ
  cooling : Bool
  deriving DecidableEq, Repr

/-- One LCD rendering: the two temperatures of the first line and the text of the second. -/
structure Render where
  cur : F32
  set : F32
  modeLine : String
  deriving DecidableEq, Repr

/-- What one iteration writes to the outside world, with the branches it took. -/
structure LoopOut where
  /-- The body of the up-button `if` ran. -/
  upFired : Bool
  /-- The body of the down-button `if` ran. -/
  dnFired : Bool
  /-- The body of the mode-button `if` ran. -/
  mdFired : Bool
  /-- The sensors were read. -/
  sampled : Bool
  /-- The status line printed, if any. -/
  serial : Option SerialLine
  /-- The LCD rendering, if any. -/
  rendered : Option Render
  /-- Level written to `COOL_PIN`. -/
  cool : Bool
  deriving DecidableEq, Repr

/-- The edge test `lX == HIGH && x == LOW`. -/
def pressEdge (prev cur : Bool) : Bool := prev == HIGH && cur == LOW

/-- Physical buttons: the three edge-triggered actions, then `lUp=up; lDn=dn; lMd=md`.
Also returns which of the three `if` bodies ran (up, down, mode). -/
def buttons (i : LoopIn) (s : State) : State × (Bool × Bool × Bool) :=
  let u := pressEdge s.lUp i.up
  let s1 := if u then { s with setT := incSetT s.setT, lcdDirty := true } else s
  let d := pressEdge s1.lDn i.dn
  let s2 := if d then { s1 with setT := decSetT s1.setT, lcdDirty := true } else s1
  let m := pressEdge s2.lMd i.md
  let s3 := if m then { s2 with mode := cycleMode s2.mode, lcdDirty := true } else s2
  ({ s3 with lUp := i.up, lDn := i.dn, lMd := i.md }, u, d, m)

/-- The cadence test `millis() - last > 2000` on `uint32_t`. -/
def sampleDue (now last : ℕ) : Bool := decide (2000 < sub32 now last)

/-- The conversion `isnan(c) ? NAN : c*9/5+32`. -/
def toFahrenheit (c : F32) : F32 :=
  if c.isnan then F32.nan
  else F32.add (F32.div (F32.mul c (F32.fin 9)) (F32.fin 5)) (F32.fin 32)

/-- Sensor block: when due, record both channels, mark dirty, store `last`, print. -/
def sample (i : LoopIn) (s : State) : State × Option SerialLine :=
  if sampleDue i.now s.last then
    let s' := { s with
      curT1 := toFahrenheit i.c1
      curH1 := i.h1
      curT2 := toFahrenheit i.c2
      curH2 := i.h2
      lcdDirty := true
      last := i.now2 % 2 ^ 32 }
    (s', some
      { t1 := s'.curT1, h1 := s'.curH1, t2 := s'.curT2, h2 := s'.curH2
        set := s'.setT, mode := s'.mode, cooling := s'.coolPin == HIGH })
  else (s, none)

/-- Second LCD line chosen by `switch(mode)`. -/
def modeLine (m : ℤ) : String :=
  if m = 1 then "Mode: Auto"
  else if m = 2 then "Mode: Cool"
  else if m = 3 then "Mode: Off"
  else "Mode: Error"

/-- LCD refresh: `if(lcdDirty){ ...render...; lcdDirty=false; }`. -/
def refresh (s : State) : State × Option Render :=
  if s.lcdDirty then
    ({ s with lcdDirty := false },
      some { cur := s.curT1, set := s.setT, modeLine := modeLine s.mode })
  else (s, none)

/-- Operation logic: the level written to `COOL_PIN` by `switch (mode)`. -/
def coolLevel (s : State) : Bool :=
  let coolOn := F32.gt s.curT1 s.setT
  if s.mode = 1 then (if coolOn then HIGH else LOW)
  else if s.mode = 2 then HIGH
  else if s.mode = 3 then LOW
  else LOW

/-- One iteration of `loop()`. -/
def loop (i : LoopIn) (s : State) : State × LoopOut :=
  let sb := buttons i s
  let ss := sample i sb.1
  let sr := refresh ss.1
  let lvl := coolLevel sr.1
  ({ sr.1 with coolPin := lvl },
    { upFired := sb.2.1
      dnFired := sb.2.2.1
      mdFired := sb.2.2.2
      sampled := sampleDue i.now sb.1.last
      serial := ss.2
      rendered := sr.2
      cool := lvl })

/-! ## Runs -/

/-- Something that happens to the controller: a `loop` iteration or a `/btn` request. -/
inductive Event where
  | iter (i : LoopIn) : Event
  | btn (cmd : Option String) : Event

/-- Effect of one event on the state. -/
def step (s : State) : Event → State
  | Event.iter i => (loop i s).1
  | Event.btn cmd => (btnRoute cmd s).1

/-- State after a sequence of events. -/
def run (s : State) (evs : List Event) : State := evs.foldl step s

/-- The setpoint is a whole number of degrees between -40 and 120. -/
def SetpointOk (t : F32) : Prop := ∃ n : ℤ, -40 ≤ n ∧ n ≤ 120 ∧ t = F32.fin n

/-- An iteration with all buttons released, no sampling due at `last = 0`, sensors failing. -/
def idleIn : LoopIn :=
  { up := HIGH, dn := HIGH, md := HIGH, now := 0
    c1 := F32.nan, h1 := F32.nan, c2 := F32.nan, h2 := F32.nan, now2 := 0 }

/-- An iteration with all buttons released in which sampling is due and both sensors fail. -/
def faultIn : LoopIn := { idleIn with now := 2001, now2 := 2050 }

/-- A running controller: 100 °F measured, cooling on, display up to date. -/
def warmState : State :=
  { setup with curT1 := F32.fin 100, curT2 := F32.fin 100, coolPin := HIGH, lcdDirty := false }

/-- An iteration in which only the up button is pressed. -/
def pressUpIn : LoopIn := { idleIn with up := LOW }

/-- An iteration in which only the down button is pressed. -/
def pressDnIn : LoopIn := { idleIn with dn := LOW }

/-- An iteration in which only the mode button is pressed. -/
def pressMdIn : LoopIn := { idleIn with md := LOW }

theorem roundHalfEven_intCast (m : ℤ) : roundHalfEven (m : ℚ) = m := by
  simp [roundHalfEven]

theorem roundHalfEven_err (x : ℚ) : |((roundHalfEven x : ℤ) : ℚ) - x| ≤ 1 / 2 := by
  have h1 : (⌊x⌋ : ℚ) ≤ x := Int.floor_le x
  have h2 : x < (⌊x⌋ : ℚ) + 1 := Int.lt_floor_add_one x
  unfold roundHalfEven
  simp only
  rw [abs_le]
  split_ifs with ha hb hc
  · constructor <;> linarith
  · push_cast; constructor <;> linarith
  · constructor <;> linarith
  · push_cast; constructor <;> linarith

theorem ulpExp_le_zero {a : ℚ} (h : a < 2 ^ (24 : ℕ)) : ulpExp a ≤ 0 := by
  unfold ulpExp
  have hl : Int.log 2 a < 24 := by
    rcases le_or_lt a 0 with h0 | h0
    · rw [Int.log_of_right_le_zero 2 h0]; norm_num
    · have := (Int.lt_zpow_iff_log_lt (b := 2) (x := 24) (by norm_num) h0).1 (by
        norm_num; norm_num at h; exact h)
      exact this
  have : max (Int.log 2 a) (-126) ≤ 23 := max_le (by omega) (by norm_num)
  omega

theorem round32_intCast (n : ℤ) (h : |n| < 2 ^ 24) : round32 (n : ℚ) = F32.fin n := by
  have ha : |(n : ℚ)| < 2 ^ (24 : ℕ) := by
    have : ((|n| : ℤ) : ℚ) < ((2 ^ 24 : ℤ) : ℚ) := by exact_mod_cast h
    simpa using this
  have he := ulpExp_le_zero ha
  obtain ⟨k, hk⟩ : ∃ k : ℕ, ulpExp |(n : ℚ)| = -(k : ℤ) := ⟨(-ulpExp |(n : ℚ)|).toNat, by omega⟩
  have hq : (n : ℚ) / 2 ^ (ulpExp |(n : ℚ)|) = ((n * 2 ^ k : ℤ) : ℚ) := by
    rw [hk, zpow_neg, zpow_natCast]; push_cast; field_simp
  have hr : ((roundHalfEven ((n : ℚ) / 2 ^ (ulpExp |(n : ℚ)|)) : ℤ) : ℚ)
      * 2 ^ (ulpExp |(n : ℚ)|) = n := by
    rw [hq, roundHalfEven_intCast, hk, zpow_neg, zpow_natCast]; push_cast; field_simp
  unfold round32
  simp only [hr]
  rw [if_neg]
  push_neg
  calc |(n : ℚ)| < 2 ^ (24 : ℕ) := ha
    _ ≤ 2 ^ (128 : ℕ) := by norm_num

theorem ulpExp_le_of_lt_128 {a : ℚ} (h : a < 128) : ulpExp a ≤ -17 := by
  unfold ulpExp
  have hl : Int.log 2 a < 7 := by
    rcases le_or_lt a 0 with h0 | h0
    · rw [Int.log_of_right_le_zero 2 h0]; norm_num
    · exact (Int.lt_zpow_iff_log_lt (b := 2) (x := 7) (by norm_num) h0).1 (by
        norm_num; exact h)
  have : max (Int.log 2 a) (-126) ≤ 6 := max_le (by omega) (by norm_num)
  omega

theorem round32_near {x : ℚ} (h : |x| < 128) :
    ∃ r : ℚ, round32 x = F32.fin r ∧ |r - x| ≤ 1 / 2 ^ (18 : ℕ) := by
  set e := ulpExp |x| with he
  have hle : e ≤ -17 := ulpExp_le_of_lt_128 h
  have hpos : (0 : ℚ) < 2 ^ e := zpow_pos (by norm_num) e
  have hsmall : (2 : ℚ) ^ e ≤ 2 ^ (-17 : ℤ) := zpow_le_zpow_right₀ (by norm_num) hle
  have herr := roundHalfEven_err (x / 2 ^ e)
  set R : ℚ := ((roundHalfEven (x / 2 ^ e) : ℤ) : ℚ) with hR
  have hdiff : R * 2 ^ e - x = (R - x / 2 ^ e) * 2 ^ e := by field_simp
  have hbound : |R * 2 ^ e - x| ≤ 1 / 2 ^ (18 : ℕ) := by
    rw [hdiff, abs_mul, abs_of_pos hpos]
    calc |R - x / 2 ^ e| * 2 ^ e ≤ 1 / 2 * 2 ^ (-17 : ℤ) :=
          mul_le_mul herr hsmall hpos.le (by norm_num)
      _ = 1 / 2 ^ (18 : ℕ) := by norm_num
  refine ⟨R * 2 ^ e, ?_, hbound⟩
  unfold round32
  simp only [← he, ← hR]
  rw [if_neg]
  push_neg
  have h1 : |R * 2 ^ e| ≤ |R * 2 ^ e - x| + |x| := by
    have := abs_add (R * 2 ^ e - x) x
    simpa using this
  have h2 : (1 : ℚ) / 2 ^ (18 : ℕ) + 128 < 2 ^ (128 : ℕ) := by norm_num
  linarith

/-! ## Projections of one iteration -/

theorem buttons_last (i : LoopIn) (s : State) : (buttons i s).1.last = s.last := by
  unfold buttons; simp only; split_ifs <;> rfl

theorem buttons_curT1 (i : LoopIn) (s : State) : (buttons i s).1.curT1 = s.curT1 := by
  unfold buttons; simp only; split_ifs <;> rfl

theorem sample_mode (i : LoopIn) (s : State) : (sample i s).1.mode = s.mode := by
  unfold sample; split_ifs <;> rfl

theorem sample_setT (i : LoopIn) (s : State) : (sample i s).1.setT = s.setT := by
  unfold sample; split_ifs <;> rfl

theorem refresh_mode (s : State) : (refresh s).1.mode = s.mode := by
  unfold refresh; split_ifs <;> rfl

theorem refresh_setT (s : State) : (refresh s).1.setT = s.setT := by
  unfold refresh; split_ifs <;> rfl

theorem refresh_curT1 (s : State) : (refresh s).1.curT1 = s.curT1 := by
  unfold refresh; split_ifs <;> rfl

theorem loop_mode (i : LoopIn) (s : State) : (loop i s).1.mode = (buttons i s).1.mode := by
  simp [loop, refresh_mode, sample_mode]

theorem loop_setT (i : LoopIn) (s : State) : (loop i s).1.setT = (buttons i s).1.setT := by
  simp [loop, refresh_setT, sample_setT]

theorem loop_curT1 (i : LoopIn) (s : State) :
    (loop i s).1.curT1 = (sample i (buttons i s).1).1.curT1 := by
  simp [loop, refresh_curT1]

theorem loop_curT1_sampled (i : LoopIn) (s : State) (h : sampleDue i.now s.last = true) :
    (loop i s).1.curT1 = toFahrenheit i.c1 := by
  rw [loop_curT1]; unfold sample; rw [buttons_last, if_pos h]

theorem loop_curT1_idle (i : LoopIn) (s : State) (h : sampleDue i.now s.last = false) :
    (loop i s).1.curT1 = s.curT1 := by
  rw [loop_curT1]; unfold sample; rw [buttons_last, h]; simp [buttons_curT1]

/-- The level written is the operation logic evaluated on the state the iteration leaves. -/
theorem loop_cool (i : LoopIn) (s : State) : (loop i s).2.cool = coolLevel (loop i s).1 := by
  simp [loop, coolLevel]

theorem loop_coolPin (i : LoopIn) (s : State) : (loop i s).1.coolPin = (loop i s).2.cool := by
  simp [loop]

theorem gt_nan_left (x : F32) : F32.gt F32.nan x = false := by
  cases x <;> rfl

theorem gt_self (x : F32) : F32.gt x x = false := by
  cases x <;> simp [F32.gt, F32.lt]

theorem gt_fin (t b : ℚ) : F32.gt (F32.fin t) (F32.fin b) = decide (b < t) := rfl

/-- Adding the binary32 nearest to one tenth to an in-range setpoint gives a larger value. -/
theorem add_tenth_gt {b : ℚ} (hlo : -40 ≤ b) (hhi : b ≤ 120) :
    F32.gt (F32.add (F32.fin b) (round32 (1 / 10))) (F32.fin b) = true := by
  obtain ⟨c, hc, hcerr⟩ := round32_near (x := 1 / 10) (by rw [abs_of_pos] <;> norm_num)
  rw [abs_le] at hcerr
  have hc1 : (1 : ℚ) / 10 - 1 / 2 ^ (18 : ℕ) ≤ c := by linarith
  have hc2 : c ≤ (1 : ℚ) / 10 + 1 / 2 ^ (18 : ℕ) := by linarith
  have hsmall : (1 : ℚ) / 2 ^ (18 : ℕ) < 1 / 100 := by norm_num
  have hx : |b + c| < 128 := by rw [abs_lt]; constructor <;> linarith
  obtain ⟨r, hr, hrerr⟩ := round32_near hx
  rw [abs_le] at hrerr
  rw [hc]
  show F32.gt (round32 (b + c)) (F32.fin b) = true
  rw [hr, gt_fin, decide_eq_true_eq]
  linarith

theorem buttons_fired (i : LoopIn) (s : State) :
    (buttons i s).2 = (pressEdge s.lUp i.up, pressEdge s.lDn i.dn, pressEdge s.lMd i.md) := by
  unfold buttons; simp only
  split_ifs <;> rfl

theorem buttons_levels (i : LoopIn) (s : State) :
    (buttons i s).1.lUp = i.up ∧ (buttons i s).1.lDn = i.dn ∧ (buttons i s).1.lMd = i.md := by
  unfold buttons; exact ⟨rfl, rfl, rfl⟩

theorem sample_levels (i : LoopIn) (s : State) :
    (sample i s).1.lUp = s.lUp ∧ (sample i s).1.lDn = s.lDn ∧ (sample i s).1.lMd = s.lMd := by
  unfold sample; split_ifs <;> exact ⟨rfl, rfl, rfl⟩

theorem refresh_levels (s : State) :
    (refresh s).1.lUp = s.lUp ∧ (refresh s).1.lDn = s.lDn ∧ (refresh s).1.lMd = s.lMd := by
  unfold refresh; split_ifs <;> exact ⟨rfl, rfl, rfl⟩

theorem loop_levels (i : LoopIn) (s : State) :
    (loop i s).1.lUp = i.up ∧ (loop i s).1.lDn = i.dn ∧ (loop i s).1.lMd = i.md := by
  have hb := buttons_levels i s
  have hs := sample_levels i (buttons i s).1
  have hr := refresh_levels (sample i (buttons i s).1).1
  refine ⟨?_, ?_, ?_⟩
  · show (refresh (sample i (buttons i s).1).1).1.lUp = i.up
    rw [hr.1, hs.1, hb.1]
  · show (refresh (sample i (buttons i s).1).1).1.lDn = i.dn
    rw [hr.2.1, hs.2.1, hb.2.1]
  · show (refresh (sample i (buttons i s).1).1).1.lMd = i.md
    rw [hr.2.2, hs.2.2, hb.2.2]

theorem loop_fired (i : LoopIn) (s : State) :
    (loop i s).2.upFired = (s.lUp && !i.up) ∧ (loop i s).2.dnFired = (s.lDn && !i.dn)
      ∧ (loop i s).2.mdFired = (s.lMd && !i.md) := by
  have h := buttons_fired i s
  refine ⟨?_, ?_, ?_⟩
  · show (buttons i s).2.1 = _
    rw [h]; cases s.lUp <;> cases i.up <;> rfl
  · show (buttons i s).2.2.1 = _
    rw [h]; cases s.lDn <;> cases i.dn <;> rfl
  · show (buttons i s).2.2.2 = _
    rw [h]; cases s.lMd <;> cases i.md <;> rfl

theorem loop_sampled (i : LoopIn) (s : State) :
    (loop i s).2.sampled = sampleDue i.now s.last := by
  show sampleDue i.now (buttons i s).1.last = _
  rw [buttons_last]

theorem loop_last (i : LoopIn) (s : State) :
    (loop i s).1.last = (if sampleDue i.now s.last then i.now2 % 2 ^ 32 else s.last) := by
  show (refresh (sample i (buttons i s).1).1).1.last = _
  have hr : ∀ t : State, (refresh t).1.last = t.last := by
    intro t; unfold refresh; split_ifs <;> rfl
  rw [hr]; unfold sample; rw [buttons_last]
  split_ifs <;> simp [buttons_last]

/-! ## Cooling decision -/

/-- C1. Fail-safe on primary sensor fault: in an iteration that samples the sensors
(`millis() - last > 2000`) and whose primary temperature read returns NaN, `curT1` is recorded
as NaN and, when the mode the iteration decides on is Auto (1), the level written to `COOL_PIN`
is LOW, whatever the setpoint. -/
theorem failsafe_on_primary_fault (i : LoopIn) (s : State)
    (hdue : sampleDue i.now s.last = true) (hfault : i.c1.isnan = true)
    (hauto : (loop i s).1.mode = 1) :
    (loop i s).1.curT1 = F32.nan ∧ (loop i s).2.cool = LOW ∧ (loop i s).1.coolPin = LOW := by
  have hcur : (loop i s).1.curT1 = F32.nan := by
    rw [loop_curT1_sampled i s hdue]; unfold toFahrenheit; rw [if_pos hfault]
  have hcool : (loop i s).2.cool = LOW := by
    rw [loop_cool]; unfold coolLevel; simp only [hcur, hauto, gt_nan_left]; rfl
  exact ⟨hcur, hcool, by rw [loop_coolPin, hcool]⟩

/-- The fail-safe on a controller that was cooling at 100 °F when the primary read fails. -/
theorem failsafe_on_primary_fault_witness :
    (loop faultIn warmState).1.curT1 = F32.nan ∧ (loop faultIn warmState).2.cool = LOW
      ∧ (loop faultIn warmState).1.coolPin = LOW :=
  failsafe_on_primary_fault faultIn warmState (by decide) (by rfl) (by rfl)

/-- C3. Auto-mode threshold is a strict comparison: when the mode the iteration decides on is
Auto (1), the level written is HIGH exactly when `curT1 > setT` in binary32; for finite values
this is the strict order of the reals; a temperature equal to the setpoint gives LOW; and for a
setpoint in `[-40, 120]` the temperature `setT + 0.1f` gives HIGH. -/
theorem auto_threshold_strict (i : LoopIn) (s : State) (hauto : (loop i s).1.mode = 1) :
    ((loop i s).2.cool = HIGH ↔ F32.gt (loop i s).1.curT1 (loop i s).1.setT = true)
    ∧ (∀ t b : ℚ, (loop i s).1.curT1 = F32.fin t → (loop i s).1.setT = F32.fin b →
        ((loop i s).2.cool = HIGH ↔ b < t))
    ∧ ((loop i s).1.curT1 = (loop i s).1.setT → (loop i s).2.cool = LOW)
    ∧ (∀ b : ℚ, -40 ≤ b → b ≤ 120 → (loop i s).1.setT = F32.fin b →
        (loop i s).1.curT1 = F32.add (F32.fin b) (round32 (1 / 10)) →
        (loop i s).2.cool = HIGH) := by
  have hc : (loop i s).2.cool = F32.gt (loop i s).1.curT1 (loop i s).1.setT := by
    rw [loop_cool]; unfold coolLevel; simp only [hauto]
    cases F32.gt (loop i s).1.curT1 (loop i s).1.setT <;> rfl
  refine ⟨by rw [hc]; rfl, ?_, ?_, ?_⟩
  · intro t b ht hb
    rw [hc, ht, hb, gt_fin]; simp [HIGH]
  · intro h
    rw [hc, h, gt_self]; rfl
  · intro b hlo hhi hb ht
    rw [hc, ht, hb, add_tenth_gt hlo hhi]; rfl

/-- Auto mode at setpoint 38: 100 °F cools, 38 °F does not, `38 + 0.1f` cools. -/
theorem auto_threshold_strict_witness :
    ((loop idleIn { setup with curT1 := F32.fin 100 }).2.cool = HIGH ↔ (38 : ℚ) < 100)
    ∧ (loop idleIn { setup with curT1 := F32.fin 38 }).2.cool = LOW
    ∧ (loop idleIn
        { setup with curT1 := F32.add (F32.fin 38) (round32 (1 / 10)) }).2.cool = HIGH :=
  ⟨(auto_threshold_strict idleIn { setup with curT1 := F32.fin 100 } (by rfl)).2.1
      100 38 (by rfl) (by rfl),
   (auto_threshold_strict idleIn { setup with curT1 := F32.fin 38 } (by rfl)).2.2.1 (by rfl),
   (auto_threshold_strict idleIn
      { setup with curT1 := F32.add (F32.fin 38) (round32 (1 / 10)) } (by rfl)).2.2.2
      38 (by norm_num) (by norm_num) (by rfl) (by rfl)⟩

/-- C4. Forced modes ignore the sensors and the setpoint: when the mode the iteration decides
on is ForceCoolingOn (2) the level written to `COOL_PIN` is HIGH, and when it is
ForceCoolingOff (3) the level written is LOW, for every reading and every setpoint. -/
theorem forced_modes_ignore_sensors (i : LoopIn) (s : State)
    (hforced : (loop i s).1.mode = 2 ∨ (loop i s).1.mode = 3) :
    (loop i s).2.cool = (if (loop i s).1.mode = 2 then HIGH else LOW)
    ∧ (loop i s).1.coolPin = (if (loop i s).1.mode = 2 then HIGH else LOW) := by
  have hc : (loop i s).2.cool = (if (loop i s).1.mode = 2 then HIGH else LOW) := by
    rw [loop_cool]; unfold coolLevel
    rcases hforced with h | h <;> simp [h]
  exact ⟨hc, by rw [loop_coolPin, hc]⟩

/-- Forced on with both sensors faulted gives HIGH; forced off at 100 °F gives LOW. -/
theorem forced_modes_ignore_sensors_witness :
    ((loop faultIn { setup with mode := 2 }).2.cool = HIGH
      ∧ (loop faultIn { setup with mode := 2 }).1.coolPin = HIGH)
    ∧ ((loop idleIn { warmState with mode := 3 }).2.cool = LOW
      ∧ (loop idleIn { warmState with mode := 3 }).1.coolPin = LOW) :=
  ⟨forced_modes_ignore_sensors faultIn { setup with mode := 2 } (Or.inl (by rfl)),
   forced_modes_ignore_sensors idleIn { warmState with mode := 3 } (Or.inr (by rfl))⟩

/-! ## Mode cycle -/

/-- C5. `cycleMode` (`mode % 3 + 1`) is the cyclic permutation 1 → 2 → 3 → 1: on each of the
three mode values three applications return the original mode while one or two do not, and
both the `/btn` route's `mode` command and a mode-button edge apply it. -/
theorem cycleMode_three_cycle (m : ℤ) (hm : m = 1 ∨ m = 2 ∨ m = 3) :
    cycleMode 1 = 2 ∧ cycleMode 2 = 3 ∧ cycleMode 3 = 1
    ∧ (cycleMode m = 1 ∨ cycleMode m = 2 ∨ cycleMode m = 3)
    ∧ cycleMode (cycleMode (cycleMode m)) = m
    ∧ cycleMode m ≠ m ∧ cycleMode (cycleMode m) ≠ m
    ∧ (∀ s : State, (btnRoute (some "mode") s).1.mode = cycleMode s.mode)
    ∧ (∀ (i : LoopIn) (s : State), pressEdge s.lMd i.md = true →
        (loop i s).1.mode = cycleMode s.mode) := by
  refine ⟨by decide, by decide, by decide, ?_, ?_, ?_, ?_, ?_, ?_⟩
  · rcases hm with h | h | h <;> subst h <;> decide
  · rcases hm with h | h | h <;> subst h <;> decide
  · rcases hm with h | h | h <;> subst h <;> decide
  · rcases hm with h | h | h <;> subst h <;> decide
  · intro s; simp [btnRoute]
  · intro i s h
    rw [loop_mode]; unfold buttons; simp only
    split_ifs <;> simp_all

/-- Three presses from Auto come back to Auto. -/
theorem cycleMode_three_cycle_witness :
    cycleMode (cycleMode (cycleMode 1)) = 1
    ∧ (loop { idleIn with md := LOW } setup).1.mode = cycleMode setup.mode :=
  ⟨(cycleMode_three_cycle 1 (Or.inl rfl)).2.2.2.2.1,
   (cycleMode_three_cycle 1 (Or.inl rfl)).2.2.2.2.2.2.2.2 { idleIn with md := LOW } setup
     (by rfl)⟩

/-! ## Setpoint range -/

theorem min_fin (a b : ℚ) : F32.min (F32.fin a) (F32.fin b) = F32.fin (min a b) := by
  unfold F32.min F32.lt
  by_cases h : b < a
  · simp [h, min_eq_right h.le]
  · simp [h, min_eq_left (not_lt.1 h)]

theorem max_fin (a b : ℚ) : F32.max (F32.fin a) (F32.fin b) = F32.fin (max a b) := by
  unfold F32.max F32.lt
  by_cases h : a < b
  · simp [h, max_eq_right h.le]
  · simp [h, max_eq_left (not_lt.1 h)]

/-- On an integer setpoint in range the increment is exact and clamps at 120. -/
theorem incSetT_int (n : ℤ) (hlo : -40 ≤ n) (hhi : n ≤ 120) :
    incSetT (F32.fin n) = F32.fin ((min (n + 1) 120 : ℤ) : ℚ) := by
  have hr : round32 ((n : ℚ) + 1) = F32.fin ((n + 1 : ℤ) : ℚ) := by
    have := round32_intCast (n + 1) (by rw [abs_lt]; constructor <;> omega)
    simpa using this
  unfold incSetT
  show F32.min (round32 ((n : ℚ) + 1)) (F32.fin 120) = _
  rw [hr, min_fin]; push_cast; rfl

/-- On an integer setpoint in range the decrement is exact and clamps at -40. -/
theorem decSetT_int (n : ℤ) (hlo : -40 ≤ n) (hhi : n ≤ 120) :
    decSetT (F32.fin n) = F32.fin ((max (n - 1) (-40) : ℤ) : ℚ) := by
  have hr : round32 ((n : ℚ) + -1) = F32.fin ((n - 1 : ℤ) : ℚ) := by
    have := round32_intCast (n - 1) (by rw [abs_lt]; constructor <;> omega)
    rw [← this]; push_cast; ring_nf
  unfold decSetT
  show F32.max (round32 ((n : ℚ) + -1)) (F32.fin (-40)) = _
  rw [hr, max_fin]; push_cast; rfl

theorem SetpointOk.inc {t : F32} (h : SetpointOk t) : SetpointOk (incSetT t) := by
  obtain ⟨n, hlo, hhi, rfl⟩ := h
  exact ⟨min (n + 1) 120, by omega, by omega, incSetT_int n hlo hhi⟩

theorem SetpointOk.dec {t : F32} (h : SetpointOk t) : SetpointOk (decSetT t) := by
  obtain ⟨n, hlo, hhi, rfl⟩ := h
  exact ⟨max (n - 1) (-40), by omega, by omega, decSetT_int n hlo hhi⟩

theorem buttons_setT_cases (i : LoopIn) (s : State) :
    (buttons i s).1.setT =
      (if pressEdge s.lDn i.dn then decSetT else id)
        ((if pressEdge s.lUp i.up then incSetT else id) s.setT) := by
  unfold buttons; simp only
  split_ifs <;> simp_all

theorem btnRoute_setT_cases (c : String) (s : State) :
    (btnRoute (some c) s).1.setT =
      (if c = "down" then decSetT else id) ((if c = "up" then incSetT else id) s.setT) := by
  unfold btnRoute; simp only
  split_ifs <;> simp_all

theorem step_setpointOk (s : State) (e : Event) (h : SetpointOk s.setT) :
    SetpointOk (step s e).setT := by
  cases e with
  | iter i =>
    show SetpointOk (loop i s).1.setT
    rw [loop_setT, buttons_setT_cases]
    split_ifs <;> first | exact h | exact h.inc | exact h.dec | exact h.inc.dec
  | btn cmd =>
    cases cmd with
    | none => exact h
    | some c =>
      show SetpointOk (btnRoute (some c) s).1.setT
      rw [btnRoute_setT_cases]
      split_ifs <;> first | exact h | exact h.inc | exact h.dec | exact h.inc.dec

theorem run_setpointOk (evs : List Event) (s : State) (h : SetpointOk s.setT) :
    SetpointOk (run s evs).setT := by
  induction evs generalizing s with
  | nil => exact h
  | cons e es ih => exact ih (step s e) (step_setpointOk s e h)

theorem setup_setpointOk : SetpointOk setup.setT := ⟨38, by norm_num, by norm_num, by simp [setup]⟩

/-- C2. Setpoint clamping invariant: after every finite sequence of `loop` iterations and `/btn`
requests from the state `setup` leaves, in any order, `setT` is a finite value `n` with
`-40 ≤ n ≤ 120`; from there an increase (by the route's `up` or by an up-button edge) stores
`min (n + 1) 120` and a decrease (by `down` or a down-button edge) stores `max (n - 1) (-40)`. -/
theorem setpoint_clamped (evs : List Event) :
    ∃ n : ℤ, (run setup evs).setT = F32.fin n ∧ -40 ≤ n ∧ n ≤ 120
      ∧ (btnRoute (some "up") (run setup evs)).1.setT = F32.fin ((min (n + 1) 120 : ℤ) : ℚ)
      ∧ (btnRoute (some "down") (run setup evs)).1.setT = F32.fin ((max (n - 1) (-40) : ℤ) : ℚ)
      ∧ (∀ i : LoopIn, pressEdge (run setup evs).lUp i.up = true →
          pressEdge (run setup evs).lDn i.dn = false →
          (loop i (run setup evs)).1.setT = F32.fin ((min (n + 1) 120 : ℤ) : ℚ))
      ∧ (∀ i : LoopIn, pressEdge (run setup evs).lUp i.up = false →
          pressEdge (run setup evs).lDn i.dn = true →
          (loop i (run setup evs)).1.setT = F32.fin ((max (n - 1) (-40) : ℤ) : ℚ)) := by
  obtain ⟨n, hlo, hhi, hn⟩ := run_setpointOk evs setup setup_setpointOk
  refine ⟨n, hn, hlo, hhi, ?_, ?_, ?_, ?_⟩
  · rw [btnRoute_setT_cases, hn]; simp [incSetT_int n hlo hhi]
  · rw [btnRoute_setT_cases, hn]; simp [decSetT_int n hlo hhi]
  · intro i hu hd
    rw [loop_setT, buttons_setT_cases, hu, hd, hn]; simp [incSetT_int n hlo hhi]
  · intro i hu hd
    rw [loop_setT, buttons_setT_cases, hu, hd, hn]; simp [decSetT_int n hlo hhi]

/-- One up press by the route, then over and over by `loop`. -/
theorem setpoint_clamped_witness :
    ∃ n : ℤ, (run setup [Event.btn (some "up"), Event.iter idleIn]).setT = F32.fin n
      ∧ -40 ≤ n ∧ n ≤ 120
      ∧ (loop pressUpIn (run setup [Event.btn (some "up"), Event.iter idleIn])).1.setT
          = F32.fin ((min (n + 1) 120 : ℤ) : ℚ)
      ∧ (loop pressDnIn (run setup [Event.btn (some "up"), Event.iter idleIn])).1.setT
          = F32.fin ((max (n - 1) (-40) : ℤ) : ℚ) := by
  obtain ⟨n, h1, h2, h3, _, _, h6, h7⟩ :=
    setpoint_clamped [Event.btn (some "up"), Event.iter idleIn]
  exact ⟨n, h1, h2, h3, h6 pressUpIn (by rfl) (by rfl), h7 pressDnIn (by rfl) (by rfl)⟩

/-! ## The `/btn` route against the buttons -/

/-- C6 (as stated, refuted). An unrecognised command changes the state: with the display up to
date (`lcdDirty = false`), the command `"cool"` leaves `lcdDirty = true`. -/
theorem unrecognized_cmd_changes_state :
    "cool" ≠ "up" ∧ "cool" ≠ "down" ∧ "cool" ≠ "mode"
    ∧ warmState.lcdDirty = false
    ∧ (btnRoute (some "cool") warmState).1.lcdDirty = true
    ∧ (btnRoute (some "cool") warmState).1 ≠ warmState := by
  refine ⟨by decide, by decide, by decide, rfl, ?_, ?_⟩
  · simp [btnRoute]
  · intro h
    have h2 : (btnRoute (some "cool") warmState).1.lcdDirty = warmState.lcdDirty := by rw [h]
    simp [btnRoute, warmState] at h2

/-- C6 (amended). For every command string other than `"up"`, `"down"` and `"mode"`, the
`/btn` route leaves the setpoint, the mode, both sensor readings and every other field
unchanged except `lcdDirty`, which it sets to true; it answers 204. -/
theorem unrecognized_cmd_only_marks_dirty (c : String) (s : State)
    (hup : c ≠ "up") (hdown : c ≠ "down") (hmode : c ≠ "mode") :
    btnRoute (some c) s = ({ s with lcdDirty := true }, 204) := by
  simp [btnRoute, hup, hdown, hmode]

/-- The command `"cool"` on a running controller only marks the display dirty. -/
theorem unrecognized_cmd_only_marks_dirty_witness :
    btnRoute (some "cool") warmState = ({ warmState with lcdDirty := true }, 204) :=
  unrecognized_cmd_only_marks_dirty "cool" warmState (by decide) (by decide) (by decide)

/-- C7. Button path and network path agree: from any state, the setpoint, mode and dirty flag
left by the route's `"up"`, `"down"`, `"mode"` equal those left by the button handling of
`loop` on a press edge of the up, down, mode button alone. -/
theorem button_and_network_paths_agree (i : LoopIn) (s : State) :
    (pressEdge s.lUp i.up = true → pressEdge s.lDn i.dn = false →
      pressEdge s.lMd i.md = false →
      ((btnRoute (some "up") s).1.setT, (btnRoute (some "up") s).1.mode,
        (btnRoute (some "up") s).1.lcdDirty)
        = ((buttons i s).1.setT, (buttons i s).1.mode, (buttons i s).1.lcdDirty))
    ∧ (pressEdge s.lUp i.up = false → pressEdge s.lDn i.dn = true →
      pressEdge s.lMd i.md = false →
      ((btnRoute (some "down") s).1.setT, (btnRoute (some "down") s).1.mode,
        (btnRoute (some "down") s).1.lcdDirty)
        = ((buttons i s).1.setT, (buttons i s).1.mode, (buttons i s).1.lcdDirty))
    ∧ (pressEdge s.lUp i.up = false → pressEdge s.lDn i.dn = false →
      pressEdge s.lMd i.md = true →
      ((btnRoute (some "mode") s).1.setT, (btnRoute (some "mode") s).1.mode,
        (btnRoute (some "mode") s).1.lcdDirty)
        = ((buttons i s).1.setT, (buttons i s).1.mode, (buttons i s).1.lcdDirty)) := by
  refine ⟨?_, ?_, ?_⟩ <;> intro hu hd hm <;> simp [btnRoute, buttons, hu, hd, hm]

/-- The three commands against the three single presses, from the state `setup` leaves. -/
theorem button_and_network_paths_agree_witness :
    ((btnRoute (some "up") setup).1.setT, (btnRoute (some "up") setup).1.mode,
        (btnRoute (some "up") setup).1.lcdDirty)
      = ((buttons pressUpIn setup).1.setT, (buttons pressUpIn setup).1.mode,
        (buttons pressUpIn setup).1.lcdDirty)
    ∧ ((btnRoute (some "down") setup).1.setT, (btnRoute (some "down") setup).1.mode,
        (btnRoute (some "down") setup).1.lcdDirty)
      = ((buttons pressDnIn setup).1.setT, (buttons pressDnIn setup).1.mode,
        (buttons pressDnIn setup).1.lcdDirty)
    ∧ ((btnRoute (some "mode") setup).1.setT, (btnRoute (some "mode") setup).1.mode,
        (btnRoute (some "mode") setup).1.lcdDirty)
      = ((buttons pressMdIn setup).1.setT, (buttons pressMdIn setup).1.mode,
        (buttons pressMdIn setup).1.lcdDirty) :=
  ⟨(button_and_network_paths_agree pressUpIn setup).1 (by rfl) (by rfl) (by rfl),
   (button_and_network_paths_agree pressDnIn setup).2.1 (by rfl) (by rfl) (by rfl),
   (button_and_network_paths_agree pressMdIn setup).2.2 (by rfl) (by rfl) (by rfl)⟩

/-! ## Dirty flag -/

theorem buttons_lcdDirty (i : LoopIn) (s : State) :
    (buttons i s).1.lcdDirty
      = (s.lcdDirty || (buttons i s).2.1 || (buttons i s).2.2.1 || (buttons i s).2.2.2) := by
  unfold buttons; simp only
  split_ifs <;> simp_all

theorem sample_lcdDirty (i : LoopIn) (s : State) :
    (sample i s).1.lcdDirty = (s.lcdDirty || sampleDue i.now s.last) := by
  unfold sample
  split_ifs with h <;> simp [h]

theorem refresh_lcdDirty (s : State) : (refresh s).1.lcdDirty = false := by
  unfold refresh
  split_ifs with h
  · rfl
  · simpa using h

theorem refresh_rendered (s : State) : (refresh s).2.isSome = s.lcdDirty := by
  unfold refresh
  split_ifs with h <;> simp [h]

theorem loop_lcdDirty (i : LoopIn) (s : State) : (loop i s).1.lcdDirty = false := by
  simp [loop, refresh_lcdDirty]

theorem loop_rendered (i : LoopIn) (s : State) :
    (loop i s).2.rendered.isSome
      = (s.lcdDirty || (loop i s).2.upFired || (loop i s).2.dnFired || (loop i s).2.mdFired
          || (loop i s).2.sampled) := by
  simp only [loop, refresh_rendered, sample_lcdDirty, buttons_lcdDirty]

/-- C8. Dirty-flag protocol: the button handling leaves `lcdDirty` true as soon as a button
whose stored level is HIGH is sampled LOW (up, down or mode), the sensor block leaves it true
when `millis() - last > 2000`; the refresh step renders the current `curT1`, `setT` and mode
exactly when `lcdDirty` is true and leaves it false, so a second refresh right after renders
nothing and two refreshes in a row render once when the flag was set (never twice); hence
every iteration ends with `lcdDirty = false`, and an iteration that follows another renders
exactly when one of its buttons went from HIGH in the previous iteration to LOW now or its
sampling is due: with no edge and no sampling it renders nothing. -/
theorem dirty_flag_protocol (i j : LoopIn) (s : State) :
    (buttons i s).1.lcdDirty
        = (s.lcdDirty || (s.lUp && !i.up) || (s.lDn && !i.dn) || (s.lMd && !i.md))
    ∧ (sample i s).1.lcdDirty = (s.lcdDirty || sampleDue i.now s.last)
    ∧ (refresh s).2
        = (if s.lcdDirty then
            some { cur := s.curT1, set := s.setT, modeLine := modeLine s.mode }
          else none)
    ∧ (refresh s).1.lcdDirty = false
    ∧ (refresh (refresh s).1).2 = none
    ∧ ((refresh s).2.toList ++ (refresh (refresh s).1).2.toList).length
        = (if s.lcdDirty then 1 else 0)
    ∧ (loop i s).1.lcdDirty = false
    ∧ (loop i s).2.rendered.isSome
        = (s.lcdDirty || (s.lUp && !i.up) || (s.lDn && !i.dn) || (s.lMd && !i.md)
            || sampleDue i.now s.last)
    ∧ (loop j (loop i s).1).2.rendered.isSome
        = ((i.up && !j.up) || (i.dn && !j.dn) || (i.md && !j.md)
            || sampleDue j.now (if sampleDue i.now s.last then i.now2 % 2 ^ 32 else s.last))
    := by
  have h2 : (refresh (refresh s).1).2 = none := by
    have := refresh_rendered (refresh s).1
    rw [refresh_lcdDirty] at this
    simpa using this
  have hb : (buttons i s).1.lcdDirty
      = (s.lcdDirty || (s.lUp && !i.up) || (s.lDn && !i.dn) || (s.lMd && !i.md)) := by
    rw [buttons_lcdDirty, buttons_fired]
    simp only [pressEdge, HIGH, LOW]
    cases s.lUp <;> cases i.up <;> cases s.lDn <;> cases i.dn <;> cases s.lMd <;> cases i.md <;>
      rfl
  have hl : ∀ (k : LoopIn) (t : State), (loop k t).2.rendered.isSome
      = (t.lcdDirty || (t.lUp && !k.up) || (t.lDn && !k.dn) || (t.lMd && !k.md)
          || sampleDue k.now t.last) := by
    intro k t
    obtain ⟨f1, f2, f3⟩ := loop_fired k t
    rw [loop_rendered, f1, f2, f3, loop_sampled]
  refine ⟨hb, sample_lcdDirty i s, ?_, refresh_lcdDirty s, h2, ?_, loop_lcdDirty i s, hl i s, ?_⟩
  · unfold refresh; split_ifs <;> rfl
  · rw [h2]
    have := refresh_rendered s
    cases hd : s.lcdDirty <;> rw [hd] at this <;> cases hr : (refresh s).2 <;> simp_all
  · obtain ⟨l1, l2, l3⟩ := loop_levels i s
    rw [hl, loop_lcdDirty, l1, l2, l3, loop_last]; simp

/-- A display that is up to date: an up press renders, the idle iteration after it does not,
and a press during that second iteration would. -/
theorem dirty_flag_protocol_witness :
    (loop pressUpIn warmState).2.rendered.isSome = true
    ∧ (loop idleIn (loop pressUpIn warmState).1).2.rendered.isSome = false
    ∧ (loop pressDnIn (loop pressUpIn warmState).1).2.rendered.isSome = true :=
  ⟨(dirty_flag_protocol pressUpIn idleIn warmState).2.2.2.2.2.2.2.1.trans (by decide),
   (dirty_flag_protocol pressUpIn idleIn warmState).2.2.2.2.2.2.2.2.trans (by decide),
   (dirty_flag_protocol pressUpIn pressDnIn warmState).2.2.2.2.2.2.2.2.trans (by decide)⟩

/-! ## Edge detection -/

end Fridge
